import Mathlib

/-!
Shallow embedding of the task-orchestration core of the N3R7A2C7 service:
task configuration parsing (`app/core/task_config.py`), the access policy
engine (`app/core/access_control.py`), the retrieval pipeline and prompt
builder (`app/core/rag_pipeline.py`), and the orchestrator plus the
read-only task endpoints (`app/api/v1/routes.py`).

External collaborators (the vector store, the generation backend, the
event sink, file export, query normalisation and profanity screening) are
passed in as explicit function parameters; machine floats are modelled as
rationals; raised exceptions are modelled with `Except`.
-/

namespace N3R7

/-! ## Data model (`app/core/task_config.py`) -/

/-- Embeds the `TextSearchConfig` dataclass. `similarity_threshold` is a
Python float, modelled as a rational. -/
structure TextSearchConfig where
  enabled : Bool := true
  embedding_model : String := "default-multilingual"
  mode : String := "topk"
  topk : Int := 5
  max_chunks : Int := 20
  similarity_threshold : ℚ := 3/10
  chunker : String := "semanticsplit"
deriving DecidableEq

/-- Embeds the `TableSearchConfig` dataclass. -/
structure TableSearchConfig where
  enabled : Bool := false
  embedding_model : String := "technical-ru"
  mode : String := "topk"
  topk : Int := 5
  max_rows : Int := 50
  similarity_threshold : ℚ := 2/5
  chunker : String := "rowtochunk"
deriving DecidableEq

/-- Embeds the `TaskConfig` dataclass. -/
structure TaskConfig where
  task_id : String
  name : String
  description : String
  task_type : String
  technical_prompt : String
  sources_mode : String := "text"
  enable_text_search : Bool := true
  enable_table_search : Bool := false
  enable_research : Bool := false
  postprocessing_type : String := "none"
  text_search : Option TextSearchConfig := none
  table_search : Option TableSearchConfig := none
  context_format : String := "structured_json"
  preserve_full_query : Bool := true
  include_sources_meta : Bool := true
  meta_mode : String := "separate"
  meta_fields : Option (List String) := none
  research_enabled : Bool := false
  research_trigger_on_low_confidence : Bool := true
  research_max_iterations : Int := 2
  research_min_confidence : ℚ := 3/5
  history_max_messages : Int := 10
  history_ttl_days : Int := 90
  logging_level : String := "info"
  logging_log_prompts : Bool := true
  logging_log_search_results : Bool := true
  logging_log_postprocessing : Bool := true
deriving DecidableEq

/-! Raw mappings handed to `from_dict`. A missing key is `none`; values
are modelled at the type the Python code coerces them to (`str`, `int`,
`float`, `bool` coercions applied at the call sites of `.get`). -/

/-- Raw `text_search` mapping. -/
structure RawTextSearchConfig where
  enabled : Option Bool := none
  embedding_model : Option String := none
  mode : Option String := none
  topk : Option Int := none
  max_chunks : Option Int := none
  similarity_threshold : Option ℚ := none
  chunker : Option String := none
deriving DecidableEq

/-- Raw `table_search` mapping. -/
structure RawTableSearchConfig where
  enabled : Option Bool := none
  embedding_model : Option String := none
  mode : Option String := none
  topk : Option Int := none
  max_rows : Option Int := none
  similarity_threshold : Option ℚ := none
  chunker : Option String := none
deriving DecidableEq

/-- Raw `context` mapping. -/
structure RawContextConfig where
  format : Option String := none
  preserve_full_query : Option Bool := none
  include_sources_meta : Option Bool := none
  meta_mode : Option String := none
  meta_fields : Option (List String) := none
deriving DecidableEq

/-- Raw `research` mapping. -/
structure RawResearchConfig where
  enabled : Option Bool := none
  trigger_on_low_confidence : Option Bool := none
  max_iterations : Option Int := none
  min_confidence : Option ℚ := none
deriving DecidableEq

/-- Raw `history` mapping. -/
structure RawHistoryConfig where
  max_messages : Option Int := none
  ttl_days : Option Int := none
deriving DecidableEq

/-- Raw `logging` mapping. -/
structure RawLoggingConfig where
  level : Option String := none
  log_prompts : Option Bool := none
  log_search_results : Option Bool := none
  log_postprocessing : Option Bool := none
deriving DecidableEq

/-- Raw top-level task mapping handed to `TaskConfig.from_dict`. -/
structure RawTaskConfig where
  task_id : Option String := none
  name : Option String := none
  description : Option String := none
  task_type : Option String := none
  technical_prompt : Option String := none
  sources_mode : Option String := none
  enable_text_search : Option Bool := none
  enable_table_search : Option Bool := none
  enable_research : Option Bool := none
  postprocessing_type : Option String := none
  text_search : Option RawTextSearchConfig := none
  table_search : Option RawTableSearchConfig := none
  context : Option RawContextConfig := none
  research : Option RawResearchConfig := none
  history : Option RawHistoryConfig := none
  logging : Option RawLoggingConfig := none
deriving DecidableEq

/-- Embeds `TextSearchConfig.from_dict` (every field defaulted via
`.get`; note that `mode` is coerced to `str` but never validated). -/
def TextSearchConfig.from_dict (data : RawTextSearchConfig) : TextSearchConfig :=
  { enabled := data.enabled.getD true
    embedding_model := data.embedding_model.getD "default-multilingual"
    mode := data.mode.getD "topk"
    topk := data.topk.getD 5
    max_chunks := data.max_chunks.getD 20
    similarity_threshold := data.similarity_threshold.getD (3/10)
    chunker := data.chunker.getD "semanticsplit" }

/-- Embeds `TableSearchConfig.from_dict` (no validation of `mode`). -/
def TableSearchConfig.from_dict (data : RawTableSearchConfig) : TableSearchConfig :=
  { enabled := data.enabled.getD false
    embedding_model := data.embedding_model.getD "technical-ru"
    mode := data.mode.getD "topk"
    topk := data.topk.getD 5
    max_rows := data.max_rows.getD 50
    similarity_threshold := data.similarity_threshold.getD (2/5)
    chunker := data.chunker.getD "rowtochunk" }

/-- Embeds `TaskConfig.from_dict`. A raised `TaskConfigError` is the
`Except.error` branch carrying the error message. -/
def TaskConfig.from_dict (data : RawTaskConfig) : Except String TaskConfig :=
  match data.task_id with
  | none => .error "Missing required field in TaskConfig: task_id"
  | some task_id =>
    let name := data.name.getD task_id
    let description := data.description.getD ""
    let task_type := data.task_type.getD "demo"
    let technical_prompt := data.technical_prompt.getD ""
    if ¬ (task_type = "demo" ∨ task_type = "corporate") then
      .error ("Invalid task_type in TaskConfig: " ++ task_type)
    else
      let sources_mode := data.sources_mode.getD "text"
      if ¬ (sources_mode = "text" ∨ sources_mode = "tables" ∨ sources_mode = "texttables") then
        .error ("Invalid sources_mode in TaskConfig: " ++ sources_mode)
      else
        let enable_text_search := data.enable_text_search.getD true
        let enable_table_search := data.enable_table_search.getD false
        let enable_research := data.enable_research.getD false
        let postprocessing_type := data.postprocessing_type.getD "none"
        if ¬ (postprocessing_type = "none" ∨ postprocessing_type = "markdown-file" ∨
              postprocessing_type = "docx-file" ∨ postprocessing_type = "customscript") then
          .error ("Invalid postprocessing_type in TaskConfig: " ++ postprocessing_type)
        else
          let text_search_cfg := data.text_search.map TextSearchConfig.from_dict
          let table_search_cfg := data.table_search.map TableSearchConfig.from_dict
          let context_cfg := data.context.getD {}
          let research_cfg := data.research.getD {}
          let history_cfg := data.history.getD {}
          let logging_cfg := data.logging.getD {}
          .ok
            { task_id := task_id
              name := name
              description := description
              task_type := task_type
              technical_prompt := technical_prompt
              sources_mode := sources_mode
              enable_text_search := enable_text_search
              enable_table_search := enable_table_search
              enable_research := enable_research
              postprocessing_type := postprocessing_type
              text_search := text_search_cfg
              table_search := table_search_cfg
              context_format := context_cfg.format.getD "structured_json"
              preserve_full_query := context_cfg.preserve_full_query.getD true
              include_sources_meta := context_cfg.include_sources_meta.getD true
              meta_mode := context_cfg.meta_mode.getD "separate"
              meta_fields := context_cfg.meta_fields
              research_enabled := research_cfg.enabled.getD false
              research_trigger_on_low_confidence := research_cfg.trigger_on_low_confidence.getD true
              research_max_iterations := research_cfg.max_iterations.getD 2
              research_min_confidence := research_cfg.min_confidence.getD (3/5)
              history_max_messages := history_cfg.max_messages.getD 10
              history_ttl_days := history_cfg.ttl_days.getD 90
              logging_level := logging_cfg.level.getD "info"
              logging_log_prompts := logging_cfg.log_prompts.getD true
              logging_log_search_results := logging_cfg.log_search_results.getD true
              logging_log_postprocessing := logging_cfg.log_postprocessing.getD true }

/-! ## Access policy engine (`app/core/access_control.py`)

`get_environment` reads `config/system.yaml` (and rejects any value
outside dev/test/prod) and `_allow_corporate_in_dev` reads the
`accesscontrol.allow_corporate_in_dev` flag; both are passed here as
explicit parameters `env` and `allow_corporate_in_dev`. -/

/-- Embeds the `AccessDecision` dataclass. -/
structure AccessDecision where
  allowed : Bool
  reason : String
deriving DecidableEq

/-- Embeds `check_task_access`: the per-request policy decision from the
task's type, the deployment environment and the corporate-in-dev flag. -/
def check_task_access (task_cfg : TaskConfig) (env : String)
    (allow_corporate_in_dev : Bool) : AccessDecision :=
  if task_cfg.task_type = "demo" then
    if env = "dev" ∨ env = "test" then
      { allowed := true
        reason := "demo task in environment=" ++ env ++ " is allowed" }
    else
      { allowed := false
        reason := "demo tasks are not allowed in environment=" ++ env ++ " by policy" }
  else if task_cfg.task_type = "corporate" then
    if env = "prod" then
      { allowed := true, reason := "corporate task is allowed in prod" }
    else if env = "dev" ∧ allow_corporate_in_dev = true then
      { allowed := true
        reason := "corporate task allowed in dev for development purposes" }
    else if env = "test" then
      { allowed := true
        reason := "corporate task allowed in test for debugging without LLM" }
    else
      { allowed := false
        reason := "corporate tasks are not allowed in environment=" ++ env ++ " by policy" }
  else
    { allowed := false
      reason := "Unknown task_type=" ++ task_cfg.task_type }

/-! ## Retrieval engine (`app/core/rag_pipeline.py`)

The ChromaDB client is modelled explicitly: the persistent store maps a
collection name to its list of `(id, document)` entries (an absent or
never-created collection is the empty list), and the nearest-neighbour
`coll.query(query_texts=[q], n_results=n)` call is an oracle parameter
returning the parallel `documents` / `ids` / `distances` arrays. -/

/-- Embeds the `RetrievedChunk` dataclass; `score` (a float distance)
is modelled as a rational. -/
structure RetrievedChunk where
  text : String
  source_id : String
  score : ℚ
deriving DecidableEq

/-- A stored collection entry: `(id, document)`. -/
abbrev CollEntry := String × String

/-- The result of one `coll.query` call: parallel arrays as returned by
the vector-search collaborator. -/
structure SearchResult where
  documents : List String
  ids : List String
  distances : List ℚ
deriving DecidableEq

/-- Seed document for the `demo_hello_texts` collection
(`ensure_collection_for_task`, demo branch). -/
def demo_hello_seed : List CollEntry :=
  [("demo_hello_doc1",
    "Этот демо-сервис показывает, как работает RAG-система для внутренних задач компании. " ++
    "Он умеет отвечать на общие вопросы о сервисе заявок, доступах к ИТ-системам и базовых регламентах. " ++
    "В реальной эксплуатации сюда будут загружены настоящие корпоративные документы, инструкции и регламенты.")]

/-- Seed documents for the `demo_rules_texts` collection
(`ensure_collection_for_task`, demo_rules branch). -/
def demo_rules_seed : List CollEntry :=
  [("demo_rules_doc1",
    "Регламент подачи заявок. " ++
    "Все запросы на доступ к ИТ-системам оформляются через портал заявок. " ++
    "Сотрудник указывает систему, тип доступа и обоснование. " ++
    "Заявка автоматически уходит на согласование руководителю и, при необходимости, в службу информационной безопасности."),
   ("demo_rules_doc2",
    "Регламент согласования доступов. " ++
    "Руководитель отвечает за подтверждение бизнес-необходимости доступа. " ++
    "Служба ИБ проверяет соответствие запроса политике безопасности. " ++
    "Без согласования руководителя и ИБ доступ предоставляться не может."),
   ("demo_rules_doc3",
    "Регламент работы с инцидентами. " ++
    "Инциденты по ИТ-системам фиксируются в системе заявок с категорией \x27Инцидент\x27. " ++
    "Для критичных инцидентов действует сокращённое время реакции и уведомление дежурной смены по заранее настроенным каналам."),
   ("demo_rules_doc4",
    "Общие правила безопасности. " ++
    "Запрещена передача корпоративных паролей третьим лицам. " ++
    "Работа с конфиденциальными данными допускается только на корпоративных устройствах. " ++
    "Подозрительная активность должна быть немедленно сообщена в службу ИБ.")]

/-- Embeds `ensure_collection_for_task`: only the two demo task ids
resolve to a collection; a collection already holding entries
(`coll.count() > 0`) is returned as-is, otherwise it is seeded with the
task's fixed reference documents. Every other task id yields `None`. -/
def ensure_collection_for_task (store : String → List CollEntry)
    (task_cfg : TaskConfig) : Option (List CollEntry) :=
  if task_cfg.task_id = "demo_hello" then
    let coll := store "demo_hello_texts"
    if coll.length > 0 then some coll else some demo_hello_seed
  else if task_cfg.task_id = "demo_rules" then
    let coll := store "demo_rules_texts"
    if coll.length > 0 then some coll else some demo_rules_seed
  else
    none

/-- Python's three-way `zip`, as used over the parallel result arrays. -/
def zip3 : List α → List β → List γ → List (α × β × γ)
  | a :: as_, b :: bs, c :: cs => (a, b, c) :: zip3 as_ bs cs
  | _, _, _ => []

/-- Embeds `retrieve_text_chunks`: resolves the task's collection,
issues one nearest-neighbour query for `top_k` candidates and converts
the parallel arrays into `RetrievedChunk`s. No configured search mode or
similarity threshold is consulted anywhere on this path. -/
def retrieve_text_chunks (store : String → List CollEntry)
    (oracle : List CollEntry → String → Nat → SearchResult)
    (task_cfg : TaskConfig) (query : String) (top_k : Nat := 3) :
    List RetrievedChunk :=
  match ensure_collection_for_task store task_cfg with
  | none => []
  | some coll =>
    let search := oracle coll query top_k
    (zip3 search.documents search.ids search.distances).map
      (fun e => { text := e.1, source_id := e.2.1, score := e.2.2 })

/-- Modelled from the spec: `retrieve_text_chunks_for_research` is
imported by the orchestrator from `app.core.rag_pipeline` but is absent
from the source tree; per the spec its expanded candidate count is
`max(2*base, base+1)` where `base` is the task's base top-k. -/
def research_candidate_count (base : Nat) : Nat :=
  max (2 * base) (base + 1)

/-- Modelled from the spec: the research-escalation retrieval pass — a
second retrieval over the same collection requesting
`research_candidate_count` candidates for the task's base top-k. -/
def retrieve_text_chunks_for_research (store : String → List CollEntry)
    (oracle : List CollEntry → String → Nat → SearchResult)
    (task_cfg : TaskConfig) (query : String) : List RetrievedChunk :=
  let base := ((task_cfg.text_search.map TextSearchConfig.topk).getD 5).toNat
  retrieve_text_chunks store oracle task_cfg query (research_candidate_count base)

/-- Spec-side semantics of `threshold-filtered` retrieval (§4.4 of the
spec, stated for the refinement comparison of claim C2): keep every
candidate whose score meets the configured similarity threshold, with no
top-k truncation. -/
def retrieve_threshold_spec (candidates : List RetrievedChunk)
    (threshold : ℚ) : List RetrievedChunk :=
  candidates.filter (fun ch => ch.score ≤ threshold)

/-! ## Prompt builder (`build_llm_prompt`) -/

/-- Left-pads a digit string to four characters, for the fractional part
of the fixed 4-decimal score rendering. -/
def pad4 (s : String) : String :=
  String.mk (List.replicate (4 - s.length) '0') ++ s

/-- Models Python's `f"{score:.4f}"` on the rational score model: the
value rounded to the nearest 1/10000 and rendered with a sign, the
integer part, a dot, and exactly four fractional digits. -/
def format4 (q : ℚ) : String :=
  let sign := if q < 0 then "-" else ""
  let n : Nat := (round (|q| * 10000) : ℤ).toNat
  sign ++ toString (n / 10000) ++ "." ++ pad4 (toString (n % 10000))

/-- One enumerated context line of the prompt:
`f"{i}. [source={ch.source_id}, score={ch.score:.4f}] {ch.text}"`. -/
def context_line (i : Nat) (ch : RetrievedChunk) : String :=
  toString i ++ ". [source=" ++ ch.source_id ++ ", score=" ++
    format4 ch.score ++ "] " ++ ch.text

/-- Python's `enumerate(chunks, start=n)`. -/
def enumerate_from (n : Nat) : List α → List (Nat × α)
  | [] => []
  | x :: xs => (n, x) :: enumerate_from (n + 1) xs

/-- Python's `sep.join(lines)`. -/
def join_with (sep : String) : List String → String
  | [] => ""
  | [x] => x
  | x :: y :: ys => x ++ sep ++ join_with sep (y :: ys)

/-- The enumerated context lines built by `build_llm_prompt`. -/
def build_context_lines (chunks : List RetrievedChunk) : List String :=
  (enumerate_from 1 chunks).map (fun e => context_line e.1 e.2)

/-- The literal marker substituted when no fragments were found. -/
def no_context_marker : String := "Контекстов по запросу не найдено."

/-- The context block of the prompt: the joined enumerated lines, or the
explicit no-context marker when the line list is empty. -/
def build_context_block (chunks : List RetrievedChunk) : String :=
  let context_lines := build_context_lines chunks
  if context_lines.isEmpty then no_context_marker
  else join_with "\n" context_lines

/-- The fixed generic fallback instruction used when the task's
`technical_prompt` is empty. -/
def default_base_prompt : String :=
  "Ты помощник по внутренним регламентам и сервисам компании. Отвечай кратко и по делу."

/-- Embeds `build_llm_prompt`: base instruction (task template or
fallback), the enumerated context block, the verbatim user query and the
closing instruction. -/
def build_llm_prompt (task_cfg : TaskConfig) (query : String)
    (chunks : List RetrievedChunk) : String :=
  let base_prompt :=
    if task_cfg.technical_prompt = "" then default_base_prompt
    else task_cfg.technical_prompt
  base_prompt ++ "\n\n" ++
    "Ниже приведён контекст, найденный по запросу пользователя:\n" ++
    build_context_block chunks ++ "\n\n" ++
    "Запрос пользователя:\n" ++ query ++ "\n\n" ++
    "Дай понятный и аккуратный ответ на русском языке. " ++
    "Если контекста не хватает, явно скажи об этом и ответь в общих чертах."

/-! ## Orchestrator (`app/api/v1/routes.py`, `_run_task`)

The orchestrator is embedded as a pure function from its collaborators
(registry, environment/policy source, vector store, generation backend,
file export, query normalisation, profanity screen) to the produced
event trace plus either the `TaskQueryResponse` or a raised
`HTTPException`. `log_event` calls become trace entries, and every
`call_llm` invocation is additionally marked by an `llmCall` trace entry
at the point of the call (the code logs an `llm` event only on
success, so the invocation itself needs its own marker). -/

/-- A chat message: `(role, content)`. -/
abbrev Message := String × String

/-- One trace entry: either a logged structured event (mirroring the
`log_event` calls, with the payload fields the claims need) or the
`llmCall` marker recording an invocation of the generation backend. -/
inductive TraceEntry where
  | queryEv
  | queryError (error : String)
  | accessDenied (reason : String)
  | searchEv (chunks_found : Nat)
  | llmCall (messages : List Message)
  | llmEv (ok : Bool) (attempt : Nat)
  | llmError (error : String)
  | researchSearch (chunks_found : Nat)
  | finalEv (ok : Bool) (answer_length : Option Nat) (error : Option String)
deriving DecidableEq

/-- The `meta` dictionary assembled by `_run_task`, with its three
possible keys. -/
structure RunMeta where
  retrieved_chunks : Option (List RetrievedChunk) := none
  research_chunks : Option (List RetrievedChunk) := none
  postprocessing : Option (String × String × String) := none
deriving DecidableEq

/-- Python's `meta or None`: an empty dict is falsy and becomes `None`. -/
def meta_or_none (m : RunMeta) : Option RunMeta :=
  if m = {} then none else some m

/-- Embeds the `TaskQueryResponse` model. -/
structure TaskQueryResponse where
  ok : Bool
  answer : Option String := none
  error : Option String := none
  meta : Option RunMeta := none
deriving DecidableEq

/-- A raised `HTTPException`. -/
structure HTTPError where
  status_code : Nat
  detail : String
deriving DecidableEq

/-- The injected collaborators of one orchestration run. `registry` is
`task_registry.get_task_config` (a `TaskRegistryError` is the error
branch); `llm` is `call_llm` followed by the
`resp["choices"][0]["message"]["content"]` extraction (an `LLMError` is
the error branch); `save_markdown` / `save_docx` return `(path,
filename)`. -/
structure Collaborators where
  env : String
  allow_corporate_in_dev : Bool
  registry : String → Except String TaskConfig
  store : String → List CollEntry
  oracle : List CollEntry → String → Nat → SearchResult
  llm : List Message → Except String String
  save_markdown : String → TaskConfig → String × String
  save_docx : String → TaskConfig → String × String
  normalize_query : String → String
  profanity : String → Bool × List String

/-- The fixed sentinel answer of the demo test-mode short-circuit. -/
def demo_test_sentinel : String :=
  "TEST MODE: LLM не вызывался, возвращены только найденные чанки."

/-- The fixed sentinel answer of the corporate test-mode short-circuit. -/
def corporate_test_sentinel : String :=
  "TEST MODE: LLM не вызывался, corporate-задача ещё не реализована."

/-- The refinement-pass addendum appended to the research prompt. -/
def research_addendum : String :=
  "\n\nЭто вторая попытка ответа с расширенным контекстом. " ++
  "Если в новом контексте есть уточняющая информация, учти её."

/-- The `meta["postprocessing"]` update applied after a successful
generation, per the task's `postprocessing_type`. -/
def apply_postprocessing (c : Collaborators) (task_cfg : TaskConfig)
    (answer : String) (meta : RunMeta) : RunMeta :=
  if task_cfg.postprocessing_type = "markdown-file" then
    let r := c.save_markdown answer task_cfg
    { meta with postprocessing := some ("markdown-file", r.1, r.2) }
  else if task_cfg.postprocessing_type = "docx-file" then
    let r := c.save_docx answer task_cfg
    { meta with postprocessing := some ("docx-file", r.1, r.2) }
  else meta

/-- The demo branch of `_run_task`, entered after the access check, with
the events already logged so far in `ev`. -/
def run_task_demo (c : Collaborators) (task_cfg : TaskConfig)
    (query normalized_query : String) (debug : Bool) (ev : List TraceEntry) :
    List TraceEntry × Except HTTPError TaskQueryResponse :=
  let chunks := retrieve_text_chunks c.store c.oracle task_cfg normalized_query 3
  let ev := ev ++ [.searchEv chunks.length]
  if c.env = "test" then
    let meta : RunMeta := { retrieved_chunks := some chunks }
    (ev ++ [.finalEv true (some 0) none],
     .ok { ok := true, answer := some demo_test_sentinel, meta := some meta })
  else
    let meta : RunMeta :=
      if debug = true then { retrieved_chunks := some chunks } else {}
    let system_prompt := build_llm_prompt task_cfg normalized_query chunks
    let messages : List Message := [("system", system_prompt), ("user", query)]
    let ev := ev ++ [.llmCall messages]
    match c.llm messages with
    | .error e =>
      (ev ++ [.llmError e, .finalEv false none (some e)],
       .ok { ok := false, error := some e, meta := meta_or_none meta })
    | .ok answer =>
      let ev := ev ++ [.llmEv true 1]
      if task_cfg.enable_research = true then
        let research_chunks :=
          retrieve_text_chunks_for_research c.store c.oracle task_cfg normalized_query
        let ev := ev ++ [.researchSearch research_chunks.length]
        let meta :=
          if debug = true then { meta with research_chunks := some research_chunks }
          else meta
        let research_prompt :=
          build_llm_prompt task_cfg normalized_query research_chunks ++ research_addendum
        let research_messages : List Message :=
          [("system", research_prompt), ("user", query)]
        let ev := ev ++ [.llmCall research_messages]
        match c.llm research_messages with
        | .error e =>
          (ev ++ [.llmError e, .finalEv false none (some e)],
           .ok { ok := false, error := some e, meta := meta_or_none meta })
        | .ok answer2 =>
          let ev := ev ++ [.llmEv true 2]
          let meta := apply_postprocessing c task_cfg answer2 meta
          (ev ++ [.finalEv true (some answer2.length) none],
           .ok { ok := true, answer := some answer2, meta := meta_or_none meta })
      else
        let meta := apply_postprocessing c task_cfg answer meta
        (ev ++ [.finalEv true (some answer.length) none],
         .ok { ok := true, answer := some answer, meta := meta_or_none meta })

/-- The system prompt of the corporate stub path. -/
def corporate_stub_prompt : String :=
  "Ты ассистент корпоративной системы заявок. " ++
  "Пока для этой corporate-задачи нет специализированного RAG-пайплайна, " ++
  "ответь аккуратно, что функциональность в разработке."

/-- The corporate branch of `_run_task`, entered after the access
check. -/
def run_task_corporate (c : Collaborators) (task_cfg : TaskConfig)
    (query : String) (ev : List TraceEntry) :
    List TraceEntry × Except HTTPError TaskQueryResponse :=
  if c.env = "test" then
    (ev ++ [.finalEv true (some 0) none],
     .ok { ok := true, answer := some corporate_test_sentinel,
           meta := meta_or_none {} })
  else
    let messages : List Message := [("system", corporate_stub_prompt), ("user", query)]
    let ev := ev ++ [.llmCall messages]
    match c.llm messages with
    | .error e =>
      (ev ++ [.llmError e, .finalEv false none (some e)],
       .ok { ok := false, error := some e, meta := meta_or_none {} })
    | .ok answer =>
      let meta := apply_postprocessing c task_cfg answer {}
      (ev ++ [.llmEv true 1, .finalEv true (some answer.length) none],
       .ok { ok := true, answer := some answer, meta := meta_or_none meta })

/-- Embeds `_run_task`: resolve, kind check, authorize, then the demo or
corporate pipeline. The returned pair is the full ordered trace and
either the raised `HTTPException` or the `TaskQueryResponse`. -/
def run_task (c : Collaborators) (task_id task_type query : String)
    (debug : Bool := true) : List TraceEntry × Except HTTPError TaskQueryResponse :=
  let normalized_query := c.normalize_query query
  let ev : List TraceEntry := [.queryEv]
  match c.registry task_id with
  | .error e => (ev ++ [.queryError e], .error { status_code := 404, detail := e })
  | .ok task_cfg =>
    if task_cfg.task_type ≠ task_type then
      let detail := "Request task_type=" ++ task_type ++
        " does not match TaskConfig.task_type=" ++ task_cfg.task_type
      (ev ++ [.queryError detail], .error { status_code := 400, detail := detail })
    else
      let decision := check_task_access task_cfg c.env c.allow_corporate_in_dev
      if decision.allowed = false then
        (ev ++ [.accessDenied decision.reason],
         .error { status_code := 403, detail := decision.reason })
      else if task_cfg.task_type = "demo" then
        run_task_demo c task_cfg query normalized_query debug ev
      else if task_cfg.task_type = "corporate" then
        run_task_corporate c task_cfg query ev
      else
        (ev, .error { status_code := 400, detail := "Unsupported task_type" })

/-! ## Read-only task endpoints (`list_tasks`, `get_task`) -/

/-- Embeds the `RegisteredTask` dataclass of the registry. -/
structure RegisteredTask where
  task_id : String
  task_type : String
  name : String
  description : String
deriving DecidableEq

/-- Embeds the `TaskInfo` response model. -/
structure TaskInfo where
  task_id : String
  task_type : String
  name : String
  description : String
deriving DecidableEq

/-- Embeds the `GET /tasks` handler loop: in prod, demo tasks are
skipped; every other task is projected to `TaskInfo`. -/
def list_tasks (env : String) : List RegisteredTask → List TaskInfo
  | [] => []
  | t :: ts =>
    if env = "prod" ∧ t.task_type = "demo" then list_tasks env ts
    else
      { task_id := t.task_id, task_type := t.task_type,
        name := t.name, description := t.description } :: list_tasks env ts

/-- Embeds the `GET /tasks/{task_id}` handler: a registry failure is a
404; in prod a demo task is masked as a 404 even when it loads. -/
def get_task (env : String) (registry : String → Except String TaskConfig)
    (task_id : String) : Except HTTPError TaskInfo :=
  match registry task_id with
  | .error e => .error { status_code := 404, detail := e }
  | .ok cfg =>
    if env = "prod" ∧ cfg.task_type = "demo" then
      .error { status_code := 404, detail := "Task not found" }
    else
      .ok { task_id := cfg.task_id, task_type := cfg.task_type,
            name := cfg.name, description := cfg.description }

/-! ## Concrete fixtures and helper lemmas -/

/-- A string whose left part is non-empty is non-empty. -/
theorem append_ne_empty_left (s t : String) (h : s ≠ "") : s ++ t ≠ "" := by
  intro he
  apply h
  have hd : s.data ++ t.data = ("" : String).data := by
    rw [← String.data_append]; exact congrArg String.data he
  have hs : s.data = [] := (List.append_eq_nil.mp hd).1
  exact String.ext hs

/-- A string whose right part is non-empty is non-empty. -/
theorem append_ne_empty_right (s t : String) (h : t ≠ "") : s ++ t ≠ "" := by
  intro he
  apply h
  have hd : s.data ++ t.data = ("" : String).data := by
    rw [← String.data_append]; exact congrArg String.data he
  have ht : t.data = [] := (List.append_eq_nil.mp hd).2
  exact String.ext ht

/-- Whether the first character list is an initial segment of the
second. -/
def starts_with : List Char → List Char → Bool
  | [], _ => true
  | _ :: _, [] => false
  | a :: as_, b :: bs => a == b && starts_with as_ bs

/-- Whether the first character list occurs contiguously inside the
second. -/
def occurs_in : List Char → List Char → Bool
  | needle, [] => needle.isEmpty
  | needle, c :: rest => starts_with needle (c :: rest) || occurs_in needle rest

/-- Substring containment, modelling "the reason mentions X". -/
def mentions (needle haystack : String) : Bool :=
  occurs_in needle.data haystack.data

/-! ## C1 -/

/-- C1: `check_task_access` decides exactly per the policy table — demo
is allowed in dev and test and denied in prod; corporate is allowed in
prod unconditionally, in dev iff the `allow_corporate_in_dev` flag is
set, and in test; any other kind is denied; and the reason string is
non-empty in every case. -/
theorem C1_check_task_access_policy_table :
    ∀ (cfg : TaskConfig) (flag : Bool),
      ((check_task_access cfg "dev" flag).allowed = true ↔
        (cfg.task_type = "demo" ∨ (cfg.task_type = "corporate" ∧ flag = true))) ∧
      ((check_task_access cfg "test" flag).allowed = true ↔
        (cfg.task_type = "demo" ∨ cfg.task_type = "corporate")) ∧
      ((check_task_access cfg "prod" flag).allowed = true ↔
        cfg.task_type = "corporate") ∧
      (check_task_access cfg "dev" flag).reason ≠ "" ∧
      (check_task_access cfg "test" flag).reason ≠ "" ∧
      (check_task_access cfg "prod" flag).reason ≠ "" := by
  intro cfg flag
  by_cases h1 : cfg.task_type = "demo"
  · cases flag <;> simp [check_task_access, h1]
  · by_cases h2 : cfg.task_type = "corporate"
    · cases flag <;> simp [check_task_access, h1, h2]
    · simp [check_task_access, h1, h2]
      exact append_ne_empty_left "Unknown task_type=" cfg.task_type (by decide)

/-- A registered demo task configuration, as loaded for `demo_hello`. -/
def demo_hello_cfg : TaskConfig :=
  { task_id := "demo_hello", name := "Demo Hello",
    description := "Welcome demo task", task_type := "demo",
    technical_prompt := "" }

/-- C1 witness: the policy table evaluated at the demo task in prod. -/
theorem C1_witness :
    ((check_task_access demo_hello_cfg "prod" false).allowed = true ↔
      demo_hello_cfg.task_type = "corporate") :=
  (C1_check_task_access_policy_table demo_hello_cfg false).2.2.1

/-! ## C8 -/

/-- C8: the research-escalation retrieval pass requests
`max(2*base, base+1)` candidates, which strictly exceeds the base top-k
for every base value, and `retrieve_text_chunks_for_research` issues its
retrieval with exactly that expanded count. -/
theorem C8_research_count_exceeds_base :
    ∀ (base : Nat), research_candidate_count base = max (2 * base) (base + 1) ∧
      base < research_candidate_count base ∧
      ∀ (store : String → List CollEntry)
        (oracle : List CollEntry → String → Nat → SearchResult)
        (cfg : TaskConfig) (query : String),
        retrieve_text_chunks_for_research store oracle cfg query =
          retrieve_text_chunks store oracle cfg query
            (research_candidate_count
              ((cfg.text_search.map TextSearchConfig.topk).getD 5).toNat) := by
  intro base
  refine ⟨rfl, ?_, fun store oracle cfg query => rfl⟩
  exact lt_of_lt_of_le (Nat.lt_succ_self base) (le_max_right _ _)

/-! ## C9 -/

/-- C9: a task whose id is neither `demo_hello` nor `demo_rules` never
resolves a collection, so `retrieve_text_chunks` returns the empty list
for every store, vector-search oracle, query and top-k. -/
theorem C9_retrieve_empty_for_other_tasks :
    ∀ (store : String → List CollEntry)
      (oracle : List CollEntry → String → Nat → SearchResult)
      (cfg : TaskConfig) (query : String) (top_k : Nat),
      cfg.task_id ≠ "demo_hello" → cfg.task_id ≠ "demo_rules" →
      retrieve_text_chunks store oracle cfg query top_k = [] := by
  intro store oracle cfg query top_k h1 h2
  simp [retrieve_text_chunks, ensure_collection_for_task, h1, h2]

/-- A corporate task configuration outside the two demo ids. -/
def corp_reports_cfg : TaskConfig :=
  { task_id := "corp_reports", name := "Corporate Reports",
    description := "", task_type := "corporate", technical_prompt := "" }

/-- A store with no pre-existing collections. -/
def empty_store : String → List CollEntry := fun _ => []

/-- A vector-search oracle returning the first `n` stored entries in
order, with all distances zero. -/
def take_oracle : List CollEntry → String → Nat → SearchResult := fun coll _ n =>
  { documents := (coll.take n).map Prod.snd,
    ids := (coll.take n).map Prod.fst,
    distances := (coll.take n).map (fun _ => 0) }

/-- C9 witness: the corporate task retrieves nothing. -/
theorem C9_witness :
    retrieve_text_chunks empty_store take_oracle corp_reports_cfg
      "Какие регламенты действуют?" 3 = [] :=
  C9_retrieve_empty_for_other_tasks empty_store take_oracle corp_reports_cfg
    "Какие регламенты действуют?" 3 (by decide) (by decide)

/-! ## C4 -/

/-- `enumerate_from` preserves length. -/
theorem enumerate_from_length (n : Nat) (l : List α) :
    (enumerate_from n l).length = l.length := by
  induction l generalizing n with
  | nil => rfl
  | cons x xs ih => simp [enumerate_from, ih]

/-- Element lookup through `enumerate_from`. -/
theorem enumerate_from_getElem (n : Nat) (l : List α) (i : Nat) :
    (enumerate_from n l)[i]? = l[i]?.map (fun x => (n + i, x)) := by
  induction l generalizing n i with
  | nil => simp [enumerate_from]
  | cons x xs ih =>
    cases i with
    | zero => simp [enumerate_from]
    | succ j =>
      simp [enumerate_from, ih (n + 1) j, Nat.add_comm, Nat.add_assoc, Nat.add_left_comm]

/-- A context line is never the empty string. -/
theorem context_line_ne_empty (i : Nat) (ch : RetrievedChunk) :
    context_line i ch ≠ "" := by
  unfold context_line
  exact append_ne_empty_left _ _ (append_ne_empty_right _ _ (by decide))

/-- A join whose first line is non-empty is non-empty. -/
theorem join_with_ne_empty (sep : String) (x : String) (xs : List String)
    (h : x ≠ "") : join_with sep (x :: xs) ≠ "" := by
  cases xs with
  | nil => simpa [join_with] using h
  | cons y ys =>
    simp only [join_with]
    exact append_ne_empty_left _ _ (append_ne_empty_left _ _ h)

/-- C4: the prompt context section is never empty — zero fragments give
the literal no-context marker, and N fragments give exactly N enumerated
lines, line i being `context_line` (index, source id, 4-decimal score,
text) of fragment i; the full prompt carries the context block. -/
theorem C4_build_prompt_context_never_empty :
    ∀ (cfg : TaskConfig) (query : String) (chunks : List RetrievedChunk),
      build_context_block chunks ≠ "" ∧
      (chunks = [] → build_context_block chunks = no_context_marker) ∧
      (build_context_lines chunks).length = chunks.length ∧
      (∀ (i : Nat) (ch : RetrievedChunk), chunks[i]? = some ch →
        (build_context_lines chunks)[i]? = some (context_line (i + 1) ch)) ∧
      (∃ pre post, build_llm_prompt cfg query chunks =
        pre ++ build_context_block chunks ++ post) := by
  intro cfg query chunks
  refine ⟨?_, ?_, ?_, ?_, ?_⟩
  · cases chunks with
    | nil => decide
    | cons c cs =>
      simp only [build_context_block, build_context_lines, enumerate_from,
        List.map_cons, List.isEmpty_cons, if_neg]
      exact join_with_ne_empty _ _ _ (context_line_ne_empty 1 c)
  · intro h; subst h; rfl
  · simp [build_context_lines, enumerate_from_length]
  · intro i ch h
    simp [build_context_lines, enumerate_from_getElem, h, Nat.add_comm]
  · refine ⟨(if cfg.technical_prompt = "" then default_base_prompt
      else cfg.technical_prompt) ++ "\n\n" ++
      "Ниже приведён контекст, найденный по запросу пользователя:\n",
      "\n\n" ++ "Запрос пользователя:\n" ++ query ++ "\n\n" ++
      "Дай понятный и аккуратный ответ на русском языке. " ++
      "Если контекста не хватает, явно скажи об этом и ответь в общих чертах.", ?_⟩
    simp [build_llm_prompt, String.append_assoc]

/-- A concrete retrieved fragment for the C4 witness. -/
def w4_chunk : RetrievedChunk :=
  { text := "Регламент подачи заявок.", source_id := "demo_rules_doc1",
    score := 123/1000 }

/-- C4 witness: one fragment yields exactly one enumerated line and the
no-context branch is exercised by the empty list. -/
theorem C4_witness :
    (build_context_lines [w4_chunk]).length = 1 ∧
    (build_context_lines [w4_chunk])[0]? = some (context_line 1 w4_chunk) ∧
    build_context_block [] = no_context_marker :=
  ⟨(C4_build_prompt_context_never_empty demo_hello_cfg "q" [w4_chunk]).2.2.1,
   (C4_build_prompt_context_never_empty demo_hello_cfg "q" [w4_chunk]).2.2.2.1 0 w4_chunk rfl,
   (C4_build_prompt_context_never_empty demo_hello_cfg "q" []).2.1 rfl⟩

/-! ## C2 -/

/-- `zip3` never yields more entries than its first list. -/
theorem zip3_length_le_left (a : List α) (b : List β) (c : List γ) :
    (zip3 a b c).length ≤ a.length := by
  induction a generalizing b c with
  | nil => cases b <;> cases c <;> simp [zip3]
  | cons x xs ih =>
    cases b with
    | nil => simp [zip3]
    | cons y ys =>
      cases c with
      | nil => simp [zip3]
      | cons z zs => simpa [zip3] using Nat.succ_le_succ (ih ys zs)

/-- `ensure_collection_for_task` looks only at the task id. -/
theorem ensure_collection_eq_of_task_id (store : String → List CollEntry)
    (cfg₁ cfg₂ : TaskConfig) (h : cfg₁.task_id = cfg₂.task_id) :
    ensure_collection_for_task store cfg₁ = ensure_collection_for_task store cfg₂ := by
  simp [ensure_collection_for_task, h]

/-- A task configured for threshold-filtered text search over the
`demo_rules` collection: mode `allwiththreshold`, threshold 10. -/
def threshold_task_cfg : TaskConfig :=
  { task_id := "demo_rules", name := "Demo Rules",
    description := "Rules demo task", task_type := "demo",
    technical_prompt := "",
    text_search := some { mode := "allwiththreshold", topk := 3,
                          similarity_threshold := 10 } }

/-- A store whose `demo_rules_texts` collection already holds four
documents. -/
def c2_store : String → List CollEntry := fun name =>
  if name = "demo_rules_texts" then
    [("demo_rules_doc1", "текст один"), ("demo_rules_doc2", "текст два"),
     ("demo_rules_doc3", "текст три"), ("demo_rules_doc4", "текст четыре")]
  else []

/-- Fixed query distances of the four stored documents, all of which
meet the threshold of 10. -/
def c2_dist (id_ : String) : ℚ :=
  if id_ = "demo_rules_doc1" then 1
  else if id_ = "demo_rules_doc2" then 2
  else if id_ = "demo_rules_doc3" then 3
  else 4

/-- A vector-search oracle over the stored entries, ascending order,
with the fixed distances above. -/
def c2_oracle : List CollEntry → String → Nat → SearchResult := fun coll _ n =>
  { documents := (coll.take n).map Prod.snd,
    ids := (coll.take n).map Prod.fst,
    distances := (coll.take n).map (fun e => c2_dist e.1) }

/-- The full candidate set the collection holds for the query. -/
def c2_candidates : List RetrievedChunk :=
  (c2_store "demo_rules_texts").map
    (fun e => { text := e.2, source_id := e.1, score := c2_dist e.1 })

/-- C2 counterexample: on a threshold-filtered task with four candidates
all meeting the threshold of 10, `retrieve_text_chunks` at top-k 3 returns
only three fragments — the fourth qualifying candidate is dropped, so
the result differs from the spec-side threshold-filtered set. -/
theorem C2_counterexample :
    threshold_task_cfg.text_search.map TextSearchConfig.mode = some "allwiththreshold" ∧
    retrieve_threshold_spec c2_candidates 10 = c2_candidates ∧
    c2_candidates.length = 4 ∧
    (retrieve_text_chunks c2_store c2_oracle threshold_task_cfg "запрос" 3).length = 3 ∧
    retrieve_text_chunks c2_store c2_oracle threshold_task_cfg "запрос" 3 ≠
      retrieve_threshold_spec c2_candidates 10 := by
  refine ⟨rfl, rfl, rfl, rfl, ?_⟩
  intro h
  have h3 : (retrieve_text_chunks c2_store c2_oracle threshold_task_cfg
      "запрос" 3).length = 3 := rfl
  rw [h] at h3
  have h4 : (retrieve_threshold_spec c2_candidates 10).length = 4 := rfl
  rw [h4] at h3
  exact absurd h3 (by decide)

/-- C2 amended: `retrieve_text_chunks` ignores the configured text-search
mode and similarity threshold entirely — even in `allwiththreshold` mode
it requests only `top_k` candidates, so (whenever the vector-search
collaborator honours the requested count) at most `top_k` fragments come
back, and the result is unchanged under any modification of the mode and
threshold. -/
theorem C2_amended_topk_truncation_in_threshold_mode :
    ∀ (store : String → List CollEntry)
      (oracle : List CollEntry → String → Nat → SearchResult)
      (cfg : TaskConfig) (query : String) (top_k : Nat),
      (∀ coll q n, (oracle coll q n).documents.length ≤ n) →
      (retrieve_text_chunks store oracle cfg query top_k).length ≤ top_k ∧
      (∀ (ts : TextSearchConfig) (m : String) (t : ℚ),
        retrieve_text_chunks store oracle
          { cfg with
            text_search := some { ts with mode := m, similarity_threshold := t } }
          query top_k =
        retrieve_text_chunks store oracle
          { cfg with
            text_search := some ts }
          query top_k) := by
  intro store oracle cfg query top_k hor
  constructor
  · unfold retrieve_text_chunks
    cases hcoll : ensure_collection_for_task store cfg with
    | none => simp
    | some coll =>
      simp only [List.length_map]
      exact le_trans (zip3_length_le_left _ _ _) (hor coll query top_k)
  · intro ts m t
    unfold retrieve_text_chunks
    rw [ensure_collection_eq_of_task_id store
      { cfg with
        text_search := some { ts with mode := m, similarity_threshold := t } }
      { cfg with
        text_search := some ts }
      rfl]

/-- C2 witness for the amended theorem: the concrete oracle honours the
requested count, so the threshold-filtered task retrieves at most three
fragments and its result is invariant under the mode and threshold. -/
theorem C2_amended_witness :
    (retrieve_text_chunks c2_store c2_oracle threshold_task_cfg "запрос" 3).length ≤ 3 ∧
    retrieve_text_chunks c2_store c2_oracle
      { threshold_task_cfg with
        text_search := some { ({} : TextSearchConfig) with
                              mode := "hybrid", similarity_threshold := 9 } }
      "запрос" 3 =
    retrieve_text_chunks c2_store c2_oracle
      { threshold_task_cfg with
        text_search := some ({} : TextSearchConfig) }
      "запрос" 3 := by
  have h := C2_amended_topk_truncation_in_threshold_mode c2_store c2_oracle
    threshold_task_cfg "запрос" 3
    (by intro coll q n; simp [c2_oracle, List.length_take])
  exact ⟨h.1, h.2 {} "hybrid" 9⟩

/-! ## C6 -/

/-- A raw task configuration whose `text_search.mode` is outside the
enumerated set, with every validated top-level field in range. -/
def c6_raw_sub_mode : RawTaskConfig :=
  { task_id := some "corp_reports", task_type := some "corporate",
    text_search := some { mode := some "bogus" } }

/-- The configuration `from_dict` actually produces for it. -/
def c6_parsed : TaskConfig :=
  { task_id := "corp_reports", name := "corp_reports", description := "",
    task_type := "corporate", technical_prompt := "",
    text_search := some { mode := "bogus" } }

/-- C6 counterexample: a raw configuration whose present `textSearch`
sub-config carries the out-of-range mode "bogus" is accepted by
`from_dict` — no `ConfigError` is raised and the bogus mode is stored
verbatim, contradicting the claimed rejection. -/
theorem C6_counterexample :
    TaskConfig.from_dict c6_raw_sub_mode = .ok c6_parsed ∧
    c6_parsed.text_search.map TextSearchConfig.mode = some "bogus" :=
  ⟨rfl, rfl⟩

/-- C6 amended: `from_dict` rejects a raw configuration whenever its
kind, sourcesMode or postprocessing value is outside its enumerated set,
but the `mode` of a present textSearch/tableSearch sub-config is never
validated — the sub-configs are passed through `from_dict` unchanged, so
any mode string is accepted. -/
theorem C6_amended_enum_validation :
    ∀ (raw : RawTaskConfig),
      (¬ (raw.task_type.getD "demo" = "demo" ∨
          raw.task_type.getD "demo" = "corporate") →
        ∀ cfg, TaskConfig.from_dict raw ≠ .ok cfg) ∧
      (¬ (raw.sources_mode.getD "text" = "text" ∨
          raw.sources_mode.getD "text" = "tables" ∨
          raw.sources_mode.getD "text" = "texttables") →
        ∀ cfg, TaskConfig.from_dict raw ≠ .ok cfg) ∧
      (¬ (raw.postprocessing_type.getD "none" = "none" ∨
          raw.postprocessing_type.getD "none" = "markdown-file" ∨
          raw.postprocessing_type.getD "none" = "docx-file" ∨
          raw.postprocessing_type.getD "none" = "customscript") →
        ∀ cfg, TaskConfig.from_dict raw ≠ .ok cfg) ∧
      (∀ cfg, TaskConfig.from_dict raw = .ok cfg →
        cfg.text_search = raw.text_search.map TextSearchConfig.from_dict ∧
        cfg.table_search = raw.table_search.map TableSearchConfig.from_dict) := by
  intro raw
  cases htid : raw.task_id with
  | none =>
    have herr : TaskConfig.from_dict raw =
        .error "Missing required field in TaskConfig: task_id" := by
      simp [TaskConfig.from_dict, htid]
    refine ⟨?_, ?_, ?_, ?_⟩
    · intro _ cfg hok; rw [herr] at hok; exact Except.noConfusion hok
    · intro _ cfg hok; rw [herr] at hok; exact Except.noConfusion hok
    · intro _ cfg hok; rw [herr] at hok; exact Except.noConfusion hok
    · intro cfg hok; rw [herr] at hok; exact Except.noConfusion hok
  | some tid =>
    refine ⟨?_, ?_, ?_, ?_⟩
    · intro hbad cfg hok
      simp only [TaskConfig.from_dict, htid] at hok
      split_ifs at hok
    · intro hbad cfg hok
      simp only [TaskConfig.from_dict, htid] at hok
      split_ifs at hok
    · intro hbad cfg hok
      simp only [TaskConfig.from_dict, htid] at hok
      split_ifs at hok
    · intro cfg hok
      simp only [TaskConfig.from_dict, htid] at hok
      split_ifs at hok with h1 h2 h3
      injection hok with h
      subst h
      exact ⟨rfl, rfl⟩

/-- C6 witness for the amended theorem: a raw configuration whose kind
is "bogus" is rejected, and the accepted "bogus"-sub-mode configuration
carries its sub-config through unchanged. -/
theorem C6_amended_witness :
    TaskConfig.from_dict { task_id := some "t", task_type := some "bogus" } ≠
      .ok c6_parsed ∧
    c6_parsed.text_search =
      (c6_raw_sub_mode.text_search.map TextSearchConfig.from_dict) :=
  ⟨(C6_amended_enum_validation
      { task_id := some "t", task_type := some "bogus" }).1 (by decide) c6_parsed,
   ((C6_amended_enum_validation c6_raw_sub_mode).2.2.2 c6_parsed rfl).1⟩

/-! ## C7 -/

/-- The deny reason the code produces for corporate-in-dev with the flag
unset. -/
def c7_reason : String :=
  "corporate tasks are not allowed in environment=dev by policy"

/-- Collaborators of the C7 scenario: environment dev,
`allow_corporate_in_dev` unset, registry resolving the corporate task. -/
def c7_collab : Collaborators :=
  { env := "dev", allow_corporate_in_dev := false,
    registry := fun _ => .ok corp_reports_cfg,
    store := empty_store, oracle := take_oracle,
    llm := fun _ => .ok "ответ",
    save_markdown := fun _ _ => ("", ""),
    save_docx := fun _ _ => ("", ""),
    normalize_query := fun q => q,
    profanity := fun _ => (false, []) }

/-- C7 counterexample: the corporate-in-dev denial is surfaced with the
reason "corporate tasks are not allowed in environment=dev by policy",
which does not mention "prod" — contradicting the claimed reason
content. -/
theorem C7_counterexample :
    check_task_access corp_reports_cfg "dev" false =
      { allowed := false, reason := c7_reason } ∧
    run_task c7_collab "corp_reports" "corporate" "запрос" true =
      ([.queryEv, .accessDenied c7_reason],
       .error { status_code := 403, detail := c7_reason }) ∧
    mentions "prod" c7_reason = false :=
  ⟨rfl, rfl, rfl⟩

/-- C7 amended: with task kind corporate, environment dev and the flag
unset, the response denies access (403) and the surfaced reason names
the current environment "dev" — it does not mention "prod". -/
theorem C7_amended_denial_reason_names_dev :
    ∀ (c : Collaborators) (task_id query : String) (debug : Bool) (cfg : TaskConfig),
      c.env = "dev" → c.allow_corporate_in_dev = false →
      c.registry task_id = .ok cfg → cfg.task_type = "corporate" →
      run_task c task_id "corporate" query debug =
        ([.queryEv, .accessDenied c7_reason],
         .error { status_code := 403, detail := c7_reason }) ∧
      mentions "dev" c7_reason = true ∧
      mentions "prod" c7_reason = false := by
  intro c task_id query debug cfg henv hflag hreg htype
  refine ⟨?_, rfl, rfl⟩
  unfold run_task
  rw [hreg]
  simp [htype, henv, hflag, check_task_access, c7_reason]

/-- C7 witness for the amended theorem, at the concrete scenario. -/
theorem C7_amended_witness :
    run_task c7_collab "corp_reports" "corporate" "запрос" false =
      ([.queryEv, .accessDenied c7_reason],
       .error { status_code := 403, detail := c7_reason }) ∧
    mentions "dev" c7_reason = true ∧
    mentions "prod" c7_reason = false :=
  C7_amended_denial_reason_names_dev c7_collab "corp_reports" "запрос" false
    corp_reports_cfg rfl rfl rfl rfl

/-! ## C10 -/

/-- C10: in prod, the task listing excludes every demo task and fetching
a demo task by id yields a 404 even when its definition loads. -/
theorem C10_prod_hides_demo_tasks :
    ∀ (tasks : List RegisteredTask) (registry : String → Except String TaskConfig)
      (task_id : String) (cfg : TaskConfig),
      (∀ info ∈ list_tasks "prod" tasks, info.task_type ≠ "demo") ∧
      (registry task_id = .ok cfg → cfg.task_type = "demo" →
        get_task "prod" registry task_id =
          .error { status_code := 404, detail := "Task not found" }) := by
  intro tasks registry task_id cfg
  constructor
  · intro info hmem
    induction tasks with
    | nil => simp [list_tasks] at hmem
    | cons t ts ih =>
      by_cases hd : t.task_type = "demo"
      · rw [list_tasks, if_pos ⟨rfl, hd⟩] at hmem
        exact ih hmem
      · rw [list_tasks, if_neg (fun hc => hd hc.2)] at hmem
        cases hmem with
        | head => simpa using hd
        | tail _ hmem => exact ih hmem
  · intro hreg hdemo
    unfold get_task
    rw [hreg]
    simp [hdemo]

/-- The registry of the C10 witness scenario. -/
def c10_registry : String → Except String TaskConfig := fun task_id =>
  if task_id = "demo_hello" then .ok demo_hello_cfg
  else .error ("Task config not found for task_id=" ++ task_id)

/-- A listing of one demo and one corporate task. -/
def c10_tasks : List RegisteredTask :=
  [{ task_id := "demo_hello", task_type := "demo", name := "Demo Hello",
     description := "Welcome demo task" },
   { task_id := "corp_reports", task_type := "corporate",
     name := "Corporate Reports", description := "" }]

/-- The corporate entry as it appears in the listing. -/
def c10_corp_info : TaskInfo :=
  { task_id := "corp_reports", task_type := "corporate",
    name := "Corporate Reports", description := "" }

/-- C10 witness: in prod the loadable demo task is masked as a 404 and
the corporate entry that survives the listing is not of kind demo. -/
theorem C10_witness :
    get_task "prod" c10_registry "demo_hello" =
      .error { status_code := 404, detail := "Task not found" } ∧
    c10_corp_info.task_type ≠ "demo" :=
  ⟨(C10_prod_hides_demo_tasks c10_tasks c10_registry "demo_hello"
      demo_hello_cfg).2 rfl rfl,
   (C10_prod_hides_demo_tasks c10_tasks c10_registry "demo_hello"
      demo_hello_cfg).1 c10_corp_info (by decide)⟩

/-! ## C5 -/

/-- C5: whenever the generation backend fails during the Generate state
(here: the backend returns a transport error for every message list, so
the first attempt fails), the run terminates with the structured result
`ok=false, error=<backend message>` — no exception escapes the
orchestrator — and the trace ends with the `llm_error` event logged
immediately before the `final` event. -/
theorem C5_llm_failure_structured_result :
    ∀ (c : Collaborators) (task_id task_type query : String) (debug : Bool)
      (cfg : TaskConfig) (e : String),
      c.registry task_id = .ok cfg →
      cfg.task_type = task_type →
      (check_task_access cfg c.env c.allow_corporate_in_dev).allowed = true →
      c.env ≠ "test" →
      (∀ msgs, c.llm msgs = .error e) →
      ∃ pre m,
        run_task c task_id task_type query debug =
          (pre ++ [.llmError e, .finalEv false none (some e)],
           .ok { ok := false, answer := none, error := some e, meta := m }) := by
  intro c task_id task_type query debug cfg e hreg htype hallow henv hllm
  subst htype
  have hknown : cfg.task_type = "demo" ∨ cfg.task_type = "corporate" := by
    by_contra hc
    push_neg at hc
    simp [check_task_access, hc.1, hc.2] at hallow
  simp only [run_task, hreg]
  rw [if_neg (by simp)]
  simp only [hallow]
  rw [if_neg (by simp)]
  cases hknown with
  | inl hdemo =>
    rw [if_pos hdemo]
    simp only [run_task_demo]
    rw [if_neg henv]
    simp only [hllm]
    exact ⟨_, _, rfl⟩
  | inr hcorp =>
    rw [if_neg (by simp [hcorp])]
    rw [if_pos hcorp]
    simp only [run_task_corporate]
    rw [if_neg henv]
    simp only [hllm]
    exact ⟨_, _, rfl⟩

/-- Collaborators of the C5 witness: dev environment, failing backend. -/
def c5_collab : Collaborators :=
  { env := "dev", allow_corporate_in_dev := false,
    registry := fun _ => .ok demo_hello_cfg,
    store := empty_store, oracle := take_oracle,
    llm := fun _ => .error "ollama_chat_4b error 500: upstream down",
    save_markdown := fun _ _ => ("", ""),
    save_docx := fun _ _ => ("", ""),
    normalize_query := fun q => q,
    profanity := fun _ => (false, []) }

/-- C5 witness: the failing backend yields the structured failure at the
concrete demo scenario. -/
theorem C5_witness :
    ∃ pre m,
      run_task c5_collab "demo_hello" "demo" "запрос" true =
        (pre ++ [.llmError "ollama_chat_4b error 500: upstream down",
                 .finalEv false none (some "ollama_chat_4b error 500: upstream down")],
         .ok { ok := false, answer := none,
               error := some "ollama_chat_4b error 500: upstream down", meta := m }) :=
  C5_llm_failure_structured_result c5_collab "demo_hello" "demo" "запрос" true
    demo_hello_cfg "ollama_chat_4b error 500: upstream down"
    rfl rfl (by decide) (by decide) (fun _ => rfl)

/-! ## C3 -/

/-- C3: in the test environment the generation backend is never invoked
— no `llmCall` marker ever appears in the trace — and every run that
produces a response (rather than raising an HTTP error during resolve,
kind check or authorize) returns `ok=true` with one of the two fixed
sentinel answers, exposing only the retrieved fragments (no research
chunks, no postprocessing, and for the corporate stub no meta at
all). -/
theorem C3_test_env_no_llm_and_sentinel :
    ∀ (c : Collaborators) (task_id task_type query : String) (debug : Bool),
      c.env = "test" →
      (∀ msgs, TraceEntry.llmCall msgs ∉ (run_task c task_id task_type query debug).1) ∧
      (∀ resp, (run_task c task_id task_type query debug).2 = .ok resp →
        resp.ok = true ∧
        ((resp.answer = some demo_test_sentinel ∧
          ∃ m, resp.meta = some m ∧ m.research_chunks = none ∧ m.postprocessing = none) ∨
         (resp.answer = some corporate_test_sentinel ∧ resp.meta = none))) := by
  intro c task_id task_type query debug henv
  cases hreg : c.registry task_id with
  | error e =>
    constructor
    · intro msgs hmem
      simp [run_task, hreg] at hmem
    · intro resp hresp
      simp [run_task, hreg] at hresp
  | ok cfg =>
    simp only [run_task, hreg]
    by_cases hmt : cfg.task_type ≠ task_type
    · rw [if_pos hmt]
      constructor
      · intro msgs hmem; simp at hmem
      · intro resp hresp; simp at hresp
    · rw [if_neg hmt]
      by_cases hal : (check_task_access cfg c.env c.allow_corporate_in_dev).allowed = false
      · rw [if_pos hal]
        constructor
        · intro msgs hmem; simp at hmem
        · intro resp hresp; simp at hresp
      · rw [if_neg hal]
        by_cases hd : cfg.task_type = "demo"
        · rw [if_pos hd]
          simp only [run_task_demo]
          rw [if_pos henv]
          constructor
          · intro msgs hmem; simp at hmem
          · intro resp hresp
            simp only [Except.ok.injEq] at hresp
            subst hresp
            exact ⟨rfl, .inl ⟨rfl, ⟨_, rfl, rfl, rfl⟩⟩⟩
        · rw [if_neg hd]
          by_cases hc : cfg.task_type = "corporate"
          · rw [if_pos hc]
            simp only [run_task_corporate]
            rw [if_pos henv]
            constructor
            · intro msgs hmem; simp at hmem
            · intro resp hresp
              simp only [Except.ok.injEq] at hresp
              subst hresp
              exact ⟨rfl, .inr ⟨rfl, rfl⟩⟩
          · rw [if_neg hc]
            constructor
            · intro msgs hmem; simp at hmem
            · intro resp hresp; simp at hresp

/-- Collaborators of the C3 witness: test environment, demo registry. -/
def c3_collab : Collaborators :=
  { env := "test", allow_corporate_in_dev := false,
    registry := fun _ => .ok demo_hello_cfg,
    store := empty_store, oracle := take_oracle,
    llm := fun _ => .ok "ответ",
    save_markdown := fun _ _ => ("", ""),
    save_docx := fun _ _ => ("", ""),
    normalize_query := fun q => q,
    profanity := fun _ => (false, []) }

/-- The fragments the test-mode demo run retrieves. -/
def c3_chunks : List RetrievedChunk :=
  retrieve_text_chunks empty_store take_oracle demo_hello_cfg "запрос" 3

/-- The response the test-mode demo run actually produces. -/
def c3_resp : TaskQueryResponse :=
  { ok := true, answer := some demo_test_sentinel,
    meta := some { retrieved_chunks := some c3_chunks } }

/-- C3 witness: the concrete test-mode demo run never invokes the
backend and returns the sentinel response. -/
theorem C3_witness :
    TraceEntry.llmCall [] ∉ (run_task c3_collab "demo_hello" "demo" "запрос" true).1 ∧
    (c3_resp.ok = true ∧
      ((c3_resp.answer = some demo_test_sentinel ∧
        ∃ m, c3_resp.meta = some m ∧ m.research_chunks = none ∧ m.postprocessing = none) ∨
       (c3_resp.answer = some corporate_test_sentinel ∧ c3_resp.meta = none))) :=
  ⟨(C3_test_env_no_llm_and_sentinel c3_collab "demo_hello" "demo" "запрос" true rfl).1 [],
   (C3_test_env_no_llm_and_sentinel c3_collab "demo_hello" "demo" "запрос" true rfl).2
     c3_resp (by rfl)⟩

end N3R7
